import Mathlib

/-!
Shallow embedding of the booking-availability engine and the route zone
segmentation logic of src/holistic.py, with theorems settling the
specification claims about them.  Times of day are modelled as rational
hours on an unbounded line (Python datetime arithmetic on the fixed
strptime base date is affine and order-preserving), coordinates as rational
degree pairs, and the Python math-module functions as an abstract structure
of rational functions.
-/

namespace Holistic

/-- Embedding of `is_time_overlap` (src/holistic.py lines 25-26):
`start1 < end2 and end1 > start2`. -/
def is_time_overlap (start1 end1 start2 end2 : ℚ) : Bool :=
  decide (start1 < end2) && decide (end1 > start2)

/-- The math-module functions used by `haversine`, taken as an abstract
external collaborator.  The two recorded facts (`radians 0 = 0` and
`sin 0 = 0`) hold exactly for the IEEE-754 `math.radians` and `math.sin`. -/
structure PyMath where
  sin : ℚ → ℚ
  cos : ℚ → ℚ
  sqrt : ℚ → ℚ
  atan2 : ℚ → ℚ → ℚ
  radians : ℚ → ℚ
  radians_zero : radians 0 = 0
  sin_zero : sin 0 = 0

/-- Embedding of `haversine` (src/holistic.py lines 18-23).  The source
returns `R * 2 * atan2(sqrt(a), sqrt(1/a))`; in Python `1/a` raises
`ZeroDivisionError` when `a == 0.0`, modelled here as `none`. -/
def haversine (M : PyMath) (lat1 lon1 lat2 lon2 : ℚ) : Option ℚ :=
  let R : ℚ := 6371
  let dlat := M.radians (lat2 - lat1)
  let dlon := M.radians (lon2 - lon1)
  let a := M.sin (dlat/2)^2 + M.cos (M.radians lat1) * M.cos (M.radians lat2) * M.sin (dlon/2)^2
  if a = 0 then none
  else some (R * 2 * M.atan2 (M.sqrt a) (M.sqrt (1/a)))

/-- A charger row as consulted by `filter_available_chargers`: only `id`
(and, in `main`, `station_id`) drive the core logic. -/
structure Charger where
  id : ℕ
  station_id : ℕ
deriving DecidableEq, Repr

/-- Failure of a storage fetch (an exception raised by the client). -/
inductive LookupErr
  | fetchFailed
deriving DecidableEq, Repr

/-- Embedding of src/holistic.py lines 42-43: the requested window is
`(preferred_start, preferred_start + duration)`; no validation occurs. -/
def preferredWindow (start_time duration_hours : ℚ) : ℚ × ℚ :=
  (start_time, start_time + duration_hours)

/-- Embedding of `filter_available_chargers` (src/holistic.py lines 41-56).
`fetch` stands for `get_bookings_for_charger` at the fixed date, yielding the
`(start_time, duration_hours)` rows or the exception the client raised, which
the source does not catch and therefore propagates out of the whole call.
A booking's window is `(start, start + duration)`; a charger is kept iff no
booking overlaps the requested window (the inner loop breaks at the first
overlap, i.e. a short-circuit `all`). -/
def filter_available_chargers (fetch : ℕ → Except LookupErr (List (ℚ × ℚ)))
    (chargers : List Charger) (start_time duration_hours : ℚ) :
    Except LookupErr (List Charger) :=
  match chargers with
  | [] => Except.ok []
  | c :: rest =>
    match fetch c.id with
    | Except.error e => Except.error e
    | Except.ok bookings =>
      let pw := preferredWindow start_time duration_hours
      let free := bookings.all (fun b => !(is_time_overlap pw.1 pw.2 b.1 (b.1 + b.2)))
      match filter_available_chargers fetch rest start_time duration_hours with
      | Except.error e => Except.error e
      | Except.ok tail => Except.ok (if free then c :: tail else tail)

/-- A row of the `bookings` table as inserted by `create_booking`. -/
structure BookingRow where
  user_id : ℕ
  station_id : ℕ
  charger_id : ℕ
  date : String
  start_time : ℚ
  duration_hours : ℚ
  energy_kwh : ℚ
  price : ℚ
  status : String
  payment_status : String
deriving DecidableEq, Repr

/-- Embedding of `create_booking` (src/holistic.py lines 71-83): the insert
unconditionally appends a row with status "confirmed" and payment status
"pending"; no overlap re-validation happens and no failure path exists. -/
def create_booking (db : List BookingRow) (user_id station_id charger_id : ℕ)
    (date : String) (start_time duration_hours energy_kwh price : ℚ) :
    List BookingRow :=
  db ++ [{ user_id := user_id, station_id := station_id, charger_id := charger_id,
           date := date, start_time := start_time, duration_hours := duration_hours,
           energy_kwh := energy_kwh, price := price,
           status := "confirmed", payment_status := "pending" }]

/-- The confirmed bookings of a charger on a date, as time windows. -/
def confirmedWindowsFor (db : List BookingRow) (charger_id : ℕ) (date : String) :
    List (ℚ × ℚ) :=
  (db.filter (fun b => decide (b.charger_id = charger_id) && decide (b.date = date)
      && decide (b.status = "confirmed"))).map
    (fun b => (b.start_time, b.start_time + b.duration_hours))

/-- Pairwise non-overlap of a list of windows (the engine's core invariant). -/
def windowsNonOverlapping : List (ℚ × ℚ) → Bool
  | [] => true
  | w :: ws => ws.all (fun w2 => !(is_time_overlap w.1 w.2 w2.1 w2.2)) && windowsNonOverlapping ws

/-- A station row: the fields consulted by the proximity filter. -/
structure Station where
  id : ℕ
  latitude : ℚ
  longitude : ℚ
deriving DecidableEq, Repr

/-- Embedding of the proximity loop of `main` (src/holistic.py lines 190-193):
append station `s` iff `dist s ≤ radius`.  In the source `dist` is the
haversine distance from the red-zone point and `radius` the literal 200. -/
def nearby_stations (dist : Station → ℚ) (radius : ℚ) : List Station → List Station
  | [] => []
  | s :: rest =>
    if dist s ≤ radius then s :: nearby_stations dist radius rest
    else nearby_stations dist radius rest

/-- A route coordinate `(lat, lon)` in degrees. -/
abbrev Coord := ℚ × ℚ

/-- Segment colors of `draw_route`. -/
inductive Color
  | green
  | orange
  | red
deriving DecidableEq, Repr

/-- The scan of `find_index` (src/holistic.py lines 91-93): the first index
whose coordinate matches the target within 1e-6 on both axes. -/
def matchIdx (t : Coord) : List Coord → Option ℕ
  | [] => none
  | p :: rest =>
    if |p.1 - t.1| < 1/1000000 ∧ |p.2 - t.2| < 1/1000000 then some 0
    else (matchIdx t rest).map (· + 1)

/-- Embedding of the inner `find_index` of `draw_route` (src/holistic.py lines
88-94): `none` for an absent target or when nothing matches. -/
def find_index (coords : List Coord) (target : Option Coord) : Option ℕ :=
  match target with
  | none => none
  | some t => matchIdx t coords

/-- Breakpoint index resolution of `draw_route` (src/holistic.py lines 95-103):
the matched index if any, else the proportional fallback when the breakpoint
was supplied, else `none`. -/
def resolveIdx (coords : List Coord) (target : Option Coord) (fallback : ℕ) : Option ℕ :=
  match find_index coords target, target with
  | none, some _ => some fallback
  | r, _ => r

/-- Python's `x or d` on an optional index: `None` and `0` are both falsy. -/
def pyOrNat : Option ℕ → ℕ → ℕ
  | some k, d => if k = 0 then d else k
  | none, d => d

/-- Embedding of `draw_route` (src/holistic.py lines 86-110) as the ordered
list of emitted polyline segments.  The fallback `int(len(latlngs)*p)` is
modelled as the exact truncation `length * n / 10` (binary-float rounding of
the product can differ for some lengths; no claim exercises the fallback).
The red segment is emitted unconditionally, starting at `oi or gi or 0`. -/
def draw_route (coords : List Coord) (green_coord orange_coord red_coord : Option Coord) :
    List (Color × List Coord) :=
  let latlngs := coords
  let gi := resolveIdx coords green_coord (latlngs.length * 3 / 10)
  let oi := resolveIdx coords orange_coord (latlngs.length * 6 / 10)
  let ri := resolveIdx coords red_coord (latlngs.length * 9 / 10)
  let greenSegs := match gi with
    | some g => [(Color.green, latlngs.take (g+1))]
    | none => []
  let orangeSegs := match oi with
    | some o => [(Color.orange, (latlngs.take (o+1)).drop (pyOrNat gi 0))]
    | none => []
  let _ := ri
  let redStart := pyOrNat oi (pyOrNat gi 0)
  greenSegs ++ orangeSegs ++ [(Color.red, latlngs.drop redStart)]

/-- Concatenate emitted segments dropping each later segment's first (shared
boundary) coordinate. -/
def joinShared : List (Color × List Coord) → List Coord
  | [] => []
  | s :: rest => s.2 ++ (rest.map (fun t => t.2.drop 1)).flatten

/-- The ten-coordinate example route of the C6 scenario. -/
def route10 : List Coord :=
  [(0,0),(1,1),(2,2),(3,3),(4,4),(5,5),(6,6),(7,7),(8,8),(9,9)]

/-! Helper lemmas shared by the claim theorems. -/

theorem pyOrNat_some_zero (k : ℕ) : pyOrNat (some k) 0 = k := by
  by_cases h : k = 0 <;> simp [pyOrNat, h]

theorem pyOrNat_some_of_le {gi oi : ℕ} (h : gi ≤ oi) : pyOrNat (some oi) gi = oi := by
  by_cases h0 : oi = 0
  · subst h0
    simp [pyOrNat, Nat.le_zero.mp h]
  · simp [pyOrNat, h0]

theorem resolveIdx_of_found {coords : List Coord} {t : Option Coord} {i : ℕ} (f : ℕ)
    (h : find_index coords t = some i) : resolveIdx coords t f = some i := by
  unfold resolveIdx
  rw [h]

theorem resolveIdx_none (coords : List Coord) (f : ℕ) :
    resolveIdx coords none f = none := rfl

theorem filter_available_ok (bk : ℕ → List (ℚ × ℚ)) (s d : ℚ)
    (chargers : List Charger) :
    filter_available_chargers (fun i => Except.ok (bk i)) chargers s d =
      Except.ok (chargers.filter (fun c =>
        (bk c.id).all (fun b => !(is_time_overlap s (s + d) b.1 (b.1 + b.2))))) := by
  induction chargers with
  | nil => rfl
  | cons c rest ih =>
    cases hfree : (bk c.id).all (fun b => !(is_time_overlap s (s + d) b.1 (b.1 + b.2))) <;>
      simp [filter_available_chargers, preferredWindow, ih, hfree, List.filter_cons]

theorem windowsNonOverlapping_append_false (ws : List (ℚ × ℚ)) (w w2 : ℚ × ℚ)
    (hmem : w2 ∈ ws) (hov : is_time_overlap w2.1 w2.2 w.1 w.2 = true) :
    windowsNonOverlapping (ws ++ [w]) = false := by
  induction ws with
  | nil => cases hmem
  | cons w0 rest ih =>
    rcases List.mem_cons.mp hmem with h0 | hrest
    · rw [h0] at hov
      simp [windowsNonOverlapping, List.all_append, hov]
    · simp [windowsNonOverlapping, ih hrest]

theorem nearby_stations_eq_filter (dist : Station → ℚ) (radius : ℚ)
    (stations : List Station) :
    nearby_stations dist radius stations =
      stations.filter (fun s => decide (dist s ≤ radius)) := by
  induction stations with
  | nil => rfl
  | cons s0 rest ih =>
    by_cases h : dist s0 ≤ radius <;> simp [nearby_stations, h, ih, List.filter_cons]

/-! The claim theorems. -/

/-- C7: touching windows (`w1.end = w2.start`) never overlap, and
`is_time_overlap` returns true exactly when `start1 < end2` and
`end1 > start2`. -/
theorem c7_overlap_iff :
    (∀ s1 m e2 : ℚ, is_time_overlap s1 m m e2 = false) ∧
      (∀ s1 e1 s2 e2 : ℚ, is_time_overlap s1 e1 s2 e2 = true ↔ s1 < e2 ∧ e1 > s2) := by
  constructor
  · intro s1 m e2
    simp [is_time_overlap]
  · intro s1 e1 s2 e2
    simp [is_time_overlap, and_comm]

/-- C8: a station is in the proximity result iff it is an input station whose
computed distance is at most the radius (inclusive of exactly radiusKm), and
the result is an order-preserving sublist of the input. -/
theorem c8_within_radius_mem_and_order (dist : Station → ℚ) (radius : ℚ)
    (stations : List Station) :
    (∀ s, s ∈ nearby_stations dist radius stations ↔ s ∈ stations ∧ dist s ≤ radius) ∧
      (nearby_stations dist radius stations).Sublist stations := by
  rw [nearby_stations_eq_filter]
  constructor
  · intro s
    simp [List.mem_filter]
  · exact List.filter_sublist stations

/-- C2: with every per-charger fetch succeeding, `filter_available_chargers`
returns a result list that contains a given input charger iff the requested
window `(start, start + duration)` overlaps none of that charger's existing
booking windows. -/
theorem c2_available_iff_no_overlap
    (bk : ℕ → List (ℚ × ℚ)) (chargers : List Charger) (s d : ℚ)
    (c : Charger) (hc : c ∈ chargers) :
    ∃ res, filter_available_chargers (fun i => Except.ok (bk i)) chargers s d =
        Except.ok res ∧
      (c ∈ res ↔ ∀ b ∈ bk c.id, is_time_overlap s (s + d) b.1 (b.1 + b.2) = false) := by
  refine ⟨_, filter_available_ok bk s d chargers, ?_⟩
  rw [List.mem_filter]
  simp [hc, List.all_eq_true]

/-- C2 witness: a single charger whose 10:00-12:00 booking overlaps the
requested 11:00-12:00 window, so it is not in the result. -/
theorem c2_witness :
    ∃ res, filter_available_chargers (fun _ => Except.ok [((10 : ℚ), (2 : ℚ))])
        [⟨1, 1⟩] 11 1 = Except.ok res ∧
      ((⟨1, 1⟩ : Charger) ∈ res ↔
        ∀ b ∈ [((10 : ℚ), (2 : ℚ))], is_time_overlap 11 (11 + 1) b.1 (b.1 + b.2) = false) :=
  c2_available_iff_no_overlap (fun _ => [((10 : ℚ), (2 : ℚ))]) [⟨1, 1⟩] 11 1 ⟨1, 1⟩
    (by simp)

/-- C4 counterexample: the booking fetch fails for charger 1, and the whole
filter call returns the error instead of excluding charger 1 and returning
charger 2 (whose fetch would succeed with no bookings). -/
theorem c4_counterexample :
    filter_available_chargers
        (fun i => if i = 1 then Except.error LookupErr.fetchFailed else Except.ok [])
        [⟨1, 5⟩, ⟨2, 5⟩] 11 1 = Except.error LookupErr.fetchFailed ∧
      filter_available_chargers
        (fun i => if i = 1 then Except.error LookupErr.fetchFailed else Except.ok [])
        [⟨1, 5⟩, ⟨2, 5⟩] 11 1 ≠ Except.ok [⟨2, 5⟩] := by
  refine ⟨rfl, ?_⟩
  intro h
  rw [show filter_available_chargers
      (fun i => if i = 1 then Except.error LookupErr.fetchFailed else Except.ok [])
      [⟨1, 5⟩, ⟨2, 5⟩] 11 1 = Except.error LookupErr.fetchFailed from rfl] at h
  exact Except.noConfusion h

/-- C4 amended: when the booking fetch fails for any charger of the list, the
`LookupError` propagates: the whole `filter_available_chargers` call fails
with an error instead of returning a charger list. -/
theorem c4_fetch_error_propagates
    (fetch : ℕ → Except LookupErr (List (ℚ × ℚ))) (chargers : List Charger)
    (s d : ℚ) (c : Charger) (e : LookupErr)
    (hc : c ∈ chargers) (hfail : fetch c.id = Except.error e) :
    ∃ e2, filter_available_chargers fetch chargers s d = Except.error e2 := by
  induction chargers with
  | nil => cases hc
  | cons c0 rest ih =>
    rcases List.mem_cons.mp hc with h0 | hrest
    · subst h0
      exact ⟨e, by simp [filter_available_chargers, hfail]⟩
    · cases hfetch0 : fetch c0.id with
      | error e0 => exact ⟨e0, by simp [filter_available_chargers, hfetch0]⟩
      | ok bs =>
        obtain ⟨e2, h2⟩ := ih hrest
        exact ⟨e2, by simp [filter_available_chargers, hfetch0, h2]⟩

/-- C4 witness: the only charger's fetch fails, and the filter call errors. -/
theorem c4_witness :
    ∃ e2, filter_available_chargers (fun _ => Except.error LookupErr.fetchFailed)
        [⟨1, 5⟩] 11 1 = Except.error e2 :=
  c4_fetch_error_propagates (fun _ => Except.error LookupErr.fetchFailed)
    [⟨1, 5⟩] 11 1 ⟨1, 5⟩ LookupErr.fetchFailed (by simp) rfl

/-- C9 counterexample: with the non-positive duration -1 the window
construction succeeds and returns (10, 9) instead of failing with
InvalidDuration, and availability filtering proceeds normally, returning the
charger. -/
theorem c9_counterexample :
    preferredWindow 10 (-1) = (10, 9) ∧
      filter_available_chargers (fun _ => Except.ok [((9 : ℚ), (2 : ℚ))])
        [⟨1, 5⟩] 10 (-1) = Except.ok [⟨1, 5⟩] := by
  constructor
  · norm_num [preferredWindow]
  · rw [filter_available_ok]
    norm_num [is_time_overlap, List.filter]

/-- C9 amended: no duration validation exists in the code: for every duration,
positive or not, the requested window is `(start, start + duration)` and
availability filtering (with succeeding fetches) returns a result list
normally; no InvalidDuration failure path exists. -/
theorem c9_no_duration_validation (s d : ℚ) :
    preferredWindow s d = (s, s + d) ∧
      ∀ (bk : ℕ → List (ℚ × ℚ)) (chargers : List Charger),
        ∃ l, filter_available_chargers (fun i => Except.ok (bk i)) chargers s d =
          Except.ok l :=
  ⟨rfl, fun bk chargers => ⟨_, filter_available_ok bk s d chargers⟩⟩

/-- C1 counterexample: the store already holds a confirmed 11:00-12:00 booking
on charger 2; a second commit for charger 2 at 11:30 for 1h succeeds (the
store changes) instead of failing with ConflictError, and the charger's
confirmed windows for the date are left overlapping. -/
theorem c1_counterexample :
    create_booking (create_booking [] 1 1 2 "2026-01-01" 11 1 5 10)
        1 1 2 "2026-01-01" (23/2) 1 5 10 ≠
      create_booking [] 1 1 2 "2026-01-01" 11 1 5 10 ∧
    windowsNonOverlapping (confirmedWindowsFor
        (create_booking (create_booking [] 1 1 2 "2026-01-01" 11 1 5 10)
          1 1 2 "2026-01-01" (23/2) 1 5 10)
        2 "2026-01-01") = false := by
  constructor
  · intro h
    have hlen := congrArg List.length h
    simp [create_booking] at hlen
  · simp only [create_booking, confirmedWindowsFor, List.nil_append, List.cons_append,
      List.filter, windowsNonOverlapping, is_time_overlap]
    norm_num [windowsNonOverlapping, is_time_overlap]

/-- C1 amended: `create_booking` never fails and always appends the confirmed
row, so a commit whose window overlaps an existing confirmed booking for the
same charger and date succeeds, changes the stored bookings, and leaves that
charger's confirmed windows for the date pairwise-overlapping: the
non-overlap invariant is not enforced. -/
theorem c1_commit_never_conflicts
    (db : List BookingRow) (u s c : ℕ) (date : String) (st dur e p : ℚ)
    (b : BookingRow) (hb : b ∈ db) (hcid : b.charger_id = c) (hdate : b.date = date)
    (hst : b.status = "confirmed")
    (hov : is_time_overlap b.start_time (b.start_time + b.duration_hours)
      st (st + dur) = true) :
    create_booking db u s c date st dur e p =
        db ++ [⟨u, s, c, date, st, dur, e, p, "confirmed", "pending"⟩] ∧
      windowsNonOverlapping (confirmedWindowsFor
        (create_booking db u s c date st dur e p) c date) = false := by
  refine ⟨rfl, ?_⟩
  have hrow : confirmedWindowsFor (create_booking db u s c date st dur e p) c date =
      confirmedWindowsFor db c date ++ [(st, st + dur)] := by
    simp [create_booking, confirmedWindowsFor, List.filter_append]
  rw [hrow]
  refine windowsNonOverlapping_append_false _ _
    (b.start_time, b.start_time + b.duration_hours) ?_ hov
  refine List.mem_map.mpr ⟨b, ?_, rfl⟩
  refine List.mem_filter.mpr ⟨hb, ?_⟩
  simp [hcid, hdate, hst]

/-- C1 witness: a store with one confirmed 11:00-12:00 booking on charger 2;
committing 11:30-12:30 on charger 2 leaves overlapping confirmed windows. -/
theorem c1_witness :
    windowsNonOverlapping (confirmedWindowsFor
        (create_booking [⟨1, 1, 2, "2026-01-01", 11, 1, 5, 10, "confirmed", "pending"⟩]
          1 1 2 "2026-01-01" (23/2) 1 5 10) 2 "2026-01-01") = false :=
  (c1_commit_never_conflicts
    [⟨1, 1, 2, "2026-01-01", 11, 1, 5, 10, "confirmed", "pending"⟩]
    1 1 2 "2026-01-01" (23/2) 1 5 10
    ⟨1, 1, 2, "2026-01-01", 11, 1, 5, 10, "confirmed", "pending"⟩
    (by simp) rfl rfl rfl
    (by simp only [is_time_overlap, Bool.and_eq_true, decide_eq_true_eq]
        norm_num)).2

/-- C3: for identical input points the source's haversine always fails (the
angular term `a` is exactly 0 and `sqrt(1/a)` divides by zero) instead of
returning the distance 0. -/
theorem c3_haversine_identical_error (M : PyMath) (lat lon : ℚ) :
    haversine M lat lon lat lon = none := by
  simp [haversine, sub_self, M.radians_zero, M.sin_zero, zero_pow]

/-- C5 counterexample: on the route (0,0),(1,0),(2,0),(3,0) all three
breakpoints match exactly (green at index 2, orange at index 1, red at index
3), yet the emitted segments do not reproduce the route: their concatenation
(dropping each later segment's shared first coordinate) repeats coordinates
instead of partitioning the route. -/
theorem c5_counterexample :
    find_index [((0 : ℚ), (0 : ℚ)), (1, 0), (2, 0), (3, 0)] (some (2, 0)) = some 2 ∧
    find_index [((0 : ℚ), (0 : ℚ)), (1, 0), (2, 0), (3, 0)] (some (1, 0)) = some 1 ∧
    find_index [((0 : ℚ), (0 : ℚ)), (1, 0), (2, 0), (3, 0)] (some (3, 0)) = some 3 ∧
    joinShared (draw_route [((0 : ℚ), (0 : ℚ)), (1, 0), (2, 0), (3, 0)]
        (some (2, 0)) (some (1, 0)) (some (3, 0))) ≠
      [((0 : ℚ), (0 : ℚ)), (1, 0), (2, 0), (3, 0)] := by
  refine ⟨?_, ?_, ?_, ?_⟩ <;>
    norm_num [find_index, matchIdx, abs_sub_lt_iff, draw_route, resolveIdx,
      joinShared, pyOrNat]

/-- C5 amended: when all three breakpoints are supplied and each matches a
route coordinate within the 1e-6 tolerance, and additionally the matched
green index is at most the matched orange index, the emitted segments'
polylines (dropping each later segment's shared first boundary coordinate)
concatenate to exactly the original route, in order, with no gaps. -/
theorem c5_segments_rebuild_route
    (coords : List Coord) (gc oc rc : Option Coord) (gi oi ri : ℕ)
    (hg : find_index coords gc = some gi) (ho : find_index coords oc = some oi)
    (hr : find_index coords rc = some ri) (hle : gi ≤ oi) :
    joinShared (draw_route coords gc oc rc) = coords := by
  have hG := resolveIdx_of_found (coords.length * 3 / 10) hg
  have hO := resolveIdx_of_found (coords.length * 6 / 10) ho
  have hR := resolveIdx_of_found (coords.length * 9 / 10) hr
  simp only [draw_route, hG, hO, hR, List.cons_append, List.nil_append, joinShared,
    List.map_cons, List.map_nil, List.flatten_cons, List.flatten_nil,
    List.append_nil, pyOrNat_some_zero, pyOrNat_some_of_le hle, List.drop_drop]
  have h3 : (coords.take (oi + 1)).take (gi + 1) = coords.take (gi + 1) := by
    rw [List.take_take, Nat.min_eq_left (Nat.succ_le_succ hle)]
  rw [← h3, ← List.append_assoc, List.take_append_drop, List.take_append_drop]

/-- C5 witness: matched breakpoints in route order rebuild the route. -/
theorem c5_witness :
    joinShared (draw_route [((0 : ℚ), (0 : ℚ)), (1, 0), (2, 0), (3, 0)]
        (some (1, 0)) (some (2, 0)) (some (3, 0))) =
      [((0 : ℚ), (0 : ℚ)), (1, 0), (2, 0), (3, 0)] :=
  c5_segments_rebuild_route [((0 : ℚ), (0 : ℚ)), (1, 0), (2, 0), (3, 0)]
    (some (1, 0)) (some (2, 0)) (some (3, 0)) 1 2 3
    (by norm_num [find_index, matchIdx, abs_sub_lt_iff])
    (by norm_num [find_index, matchIdx, abs_sub_lt_iff])
    (by norm_num [find_index, matchIdx, abs_sub_lt_iff])
    (by norm_num)

/-- C6: on the ten-coordinate route with the green breakpoint matching index 3
exactly and orange and red absent, exactly the green segment over indices 0-3
and the red segment over indices 3-9 are emitted; and in general an absent
orange breakpoint yields no orange segment and an absent green breakpoint
yields no green segment (no empty segment is emitted for them). -/
theorem c6_scenario_and_omission :
    draw_route route10 (some (3, 3)) none none =
        [(Color.green, route10.take 4), (Color.red, route10.drop 3)] ∧
      (∀ (coords : List Coord) (gc rc : Option Coord),
        (draw_route coords gc none rc).all
          (fun seg => decide (seg.1 ≠ Color.orange)) = true) ∧
      (∀ (coords : List Coord) (oc rc : Option Coord),
        (draw_route coords none oc rc).all
          (fun seg => decide (seg.1 ≠ Color.green)) = true) := by
  refine ⟨?_, ?_, ?_⟩
  · norm_num [draw_route, resolveIdx, find_index, matchIdx, route10,
      abs_sub_lt_iff, pyOrNat]
  · intro coords gc rc
    cases h : resolveIdx coords gc (coords.length * 3 / 10) <;>
      simp [draw_route, resolveIdx_none, h]
  · intro coords oc rc
    cases h : resolveIdx coords oc (coords.length * 6 / 10) <;>
      simp [draw_route, resolveIdx_none, h]

/-- C10: when the orange breakpoint matches route index 0 and the green
breakpoint matches index k > 0, the emitted segments are the green 0..k
segment, an empty orange polyline, and a red segment starting at the green
boundary k rather than at the orange boundary 0: in `oi or gi or 0` the index
0 is falsy and is treated like an absent boundary. -/
theorem c10_red_starts_at_green_boundary
    (coords : List Coord) (gc oc rc : Option Coord) (k : ℕ)
    (ho : find_index coords oc = some 0) (hg : find_index coords gc = some k)
    (hk : 0 < k) :
    draw_route coords gc oc rc =
      [(Color.green, coords.take (k + 1)), (Color.orange, []),
        (Color.red, coords.drop k)] := by
  have hG := resolveIdx_of_found (coords.length * 3 / 10) hg
  have hO := resolveIdx_of_found (coords.length * 6 / 10) ho
  have hk2 : k ≠ 0 := Nat.pos_iff_ne_zero.mp hk
  have hdrop : ((coords.take 1).drop k : List Coord) = [] :=
    List.drop_eq_nil_of_le (le_trans (coords.length_take_le 1) hk)
  cases hR : resolveIdx coords rc (coords.length * 9 / 10) <;>
    simp [draw_route, hG, hO, hR, pyOrNat, hk2, hdrop]

/-- C10 witness: orange matches index 0, green matches index 1; the red
segment starts at index 1. -/
theorem c10_witness :
    draw_route [((0 : ℚ), (0 : ℚ)), (1, 0), (2, 0)]
        (some (1, 0)) (some (0, 0)) none =
      [(Color.green, [((0 : ℚ), (0 : ℚ)), (1, 0)]), (Color.orange, []),
        (Color.red, [((1 : ℚ), (0 : ℚ)), (2, 0)])] :=
  c10_red_starts_at_green_boundary [((0 : ℚ), (0 : ℚ)), (1, 0), (2, 0)]
    (some (1, 0)) (some (0, 0)) none 1
    (by norm_num [find_index, matchIdx, abs_sub_lt_iff])
    (by norm_num [find_index, matchIdx, abs_sub_lt_iff])
    (by norm_num)

end Holistic
